import Mathlib

/-!
Verification of the SEVEN prompt router (`src/SEVEN/`).

Shallow embedding of the routing core: the heuristic classifier
(`heuristics.py`), the cheap-backend retry client (`local_model.py`),
the augmentation sub-pipeline (`api_check.py`), the energy annotator
(`energy.py`, `router.py`), and the escalation orchestrator
(`router.py`).

Modelling conventions:
- Python strings are Lean `String`s; `str.lower()` is modelled by
  `String.toLower` (the keyword tables are ASCII), `str.strip()` by
  dropping whitespace characters at both ends, `x in s` (substring
  test) by an executable infix check on character lists.
- Network calls are oracle functions supplied as parameters; a Python
  exception is an `Except.error` value carrying the exception payload.
- Wall-clock time is not modelled: latencies are carried as opaque
  rational fields, and `time.sleep(backoff)` is recorded by appending
  the requested duration to a delay trace.
- Floats are modelled as rationals (`ℚ`).
-/

set_option maxRecDepth 100000

namespace SEVEN

/-! ## Python string primitives -/

/-- Substring membership on character lists: Python `pat in hay`. -/
def containsSub (hay pat : List Char) : Bool :=
  match hay with
  | [] => pat.isEmpty
  | _ :: t => if pat.isPrefixOf hay then true else containsSub t pat

/-- Python `pat in hay` for strings (both already lowercased by callers). -/
def pyContains (hay pat : String) : Bool :=
  containsSub hay.data pat.data

/-- Python `str.lower()` (ASCII). -/
def pyLower (s : String) : String :=
  ⟨s.data.map Char.toLower⟩

/-- Python `str.strip()`: drop whitespace at both ends. -/
def pyStrip (s : String) : String :=
  ⟨((s.data.dropWhile Char.isWhitespace).reverse.dropWhile Char.isWhitespace).reverse⟩

/-- Python `not s or not s.strip()`: the string is empty or all whitespace. -/
def pyIsBlank (s : String) : Bool :=
  s.data.all Char.isWhitespace

/-- Count of maximal non-whitespace runs: Python `len(s.split())`. -/
def countWordsAux : Bool → List Char → Nat
  | _, [] => 0
  | false, c :: cs =>
      if c.isWhitespace then countWordsAux false cs else 1 + countWordsAux true cs
  | true, c :: cs =>
      if c.isWhitespace then countWordsAux false cs else countWordsAux true cs

/-- Python `len(prompt.split())`. -/
def pyWordCount (s : String) : Nat :=
  countWordsAux false s.data

/-! ## heuristics.py: keyword tables -/

/-- `API_INTENT_KEYWORDS["weather"]`. -/
def weatherKeywords : List String :=
  ["weather", "temperature", "forecast", "rain", "snow", "humidity", "wind"]

/-- `API_INTENT_KEYWORDS["crypto"]`. -/
def cryptoKeywords : List String :=
  ["crypto", "bitcoin", "btc", "ethereum", "eth", "solana", "sol",
   "dogecoin", "doge", "token", "coin", "price"]

/-- `API_INTENT_KEYWORDS["news"]`. -/
def newsKeywords : List String :=
  ["news", "headline", "breaking", "latest news", "today\x27s news", "current events"]

/-- `REALTIME_KEYWORDS`: recency phrases united with every API intent keyword
(the sort applied in the source does not affect membership tests). -/
def REALTIME_KEYWORDS : List String :=
  ["current", "latest", "today", "now", "right now", "this week", "this month",
   "recent", "trading", "market cap", "stock"]
  ++ weatherKeywords ++ cryptoKeywords ++ newsKeywords

/-- `COMPLEX_MARKERS`. -/
def COMPLEX_MARKERS : List String :=
  ["write a detailed", "write an essay", "write a report",
   "write a paper", "write an article", "draft a",
   "comprehensive analysis", "detailed analysis", "in-depth analysis",
   "analyze in detail", "deep dive into",
   "compare and contrast", "compare all", "differences between",
   "similarities and differences",
   "step-by-step tutorial", "step by step", "walk me through",
   "guide me through", "explain step by step",
   "explain in depth", "explain thoroughly", "explain comprehensively",
   "provide a detailed explanation", "go into detail",
   "quantum", "derive the", "prove that", "proof of",
   "theorem", "algorithm analysis", "big o notation",
   "differential equation", "integral of",
   "list all", "enumerate all", "every single", "all possible",
   "write a story", "write a poem", "create a narrative",
   "research on", "literature review", "survey of"]

/-- `SPECIALIZED_DOMAINS`. -/
def SPECIALIZED_DOMAINS : List String :=
  ["quantum chromodynamics", "string theory", "general relativity",
   "thermodynamics", "organic chemistry",
   "topology", "number theory", "abstract algebra",
   "differential geometry", "complex analysis",
   "blockchain consensus", "zero-knowledge proof",
   "compiler optimization", "kernel development"]

/-- `UNCERTAINTY_PHRASES`. -/
def UNCERTAINTY_PHRASES : List String :=
  ["i don\x27t know", "i don\x27t", "i\x27m not sure", "not sure",
   "i cannot", "i can\x27t", "i cannot answer", "i\x27m unable to",
   "unable to help", "cannot provide", "can\x27t provide",
   "i don\x27t have information", "don\x27t have information",
   "i don\x27t have access", "don\x27t have access",
   "beyond my knowledge", "i lack", "insufficient information",
   "i apologize", "i\x27m sorry", "sorry, i", "unfortunately, i",
   "as an ai", "as a language model", "i\x27m just an ai"]

/-- `MAX_LOCAL_WORD_COUNT`. -/
def MAX_LOCAL_WORD_COUNT : Nat := 150

/-- `any(keyword in lowered for keyword in kws)`. -/
def anyKeyword (lowered : String) (kws : List String) : Bool :=
  kws.any (fun k => pyContains lowered k)

/-! ## heuristics.py: classification -/

/-- Routing destination: the `route` value of `classify_query_type`. -/
inductive Route where
  | LOCAL
  | CLOUD
  | API_CHECK
  deriving DecidableEq, Repr

/-- Result of `classify_query_type`: the `{"route": ..., "reason": ...}` dict. -/
structure Classification where
  route : Route
  reason : String
  deriving DecidableEq, Repr

/-- `classify_query_type(prompt)` from heuristics.py. -/
def classify_query_type (prompt : String) : Classification :=
  if pyIsBlank prompt then ⟨Route.LOCAL, "empty_prompt"⟩
  else
    let lowered := pyLower prompt
    let word_count := pyWordCount prompt
    if anyKeyword lowered REALTIME_KEYWORDS then ⟨Route.API_CHECK, "needs_realtime_data"⟩
    else if anyKeyword lowered SPECIALIZED_DOMAINS then ⟨Route.CLOUD, "specialized_domain"⟩
    else if anyKeyword lowered COMPLEX_MARKERS then ⟨Route.CLOUD, "too_complex_for_small_model"⟩
    else if word_count > MAX_LOCAL_WORD_COUNT then ⟨Route.CLOUD, "prompt_too_long"⟩
    else ⟨Route.LOCAL, "default_energy_saving"⟩

/-- `detect_api_intent(prompt)` from heuristics.py: dict iteration order is
weather, crypto, news. -/
def detect_api_intent (prompt : String) : Option String :=
  if pyIsBlank prompt then none
  else
    let lowered := pyLower prompt
    if anyKeyword lowered weatherKeywords then some "weather"
    else if anyKeyword lowered cryptoKeywords then some "crypto"
    else if anyKeyword lowered newsKeywords then some "news"
    else none

/-! ## energy.py: profiles and estimates -/

/-- `JOULES_PER_WH`. -/
def JOULES_PER_WH : ℚ := 3600

/-- `EnergyProfile` dataclass from energy.py (floats as rationals). -/
structure EnergyProfile where
  slug : String
  label : String
  per_token_j : Option ℚ
  per_token_j_min : Option ℚ
  per_token_j_max : Option ℚ
  per_query_wh : Option ℚ
  per_query_wh_min : Option ℚ
  per_query_wh_max : Option ℚ
  source : String
  note : String
  deriving DecidableEq, Repr

/-- `EnergyEstimate` dataclass from energy.py. -/
structure EnergyEstimate where
  profile_label : String
  tokens : ℤ
  joules : ℚ
  watt_hours : ℚ
  kilowatt_hours : ℚ
  joules_min : Option ℚ
  joules_max : Option ℚ
  watt_hours_min : Option ℚ
  watt_hours_max : Option ℚ
  kilowatt_hours_min : Option ℚ
  kilowatt_hours_max : Option ℚ
  average_power_w : Option ℚ
  source : String
  note : String
  deriving DecidableEq, Repr

/-- `CloudProfile` enum. -/
inductive CloudProfile where
  | GPT4O_SHORT
  | CLOUD_GENERIC
  | GEMINI_TEXT
  | GPT5_INSTANT
  | GPT5_THINKING
  | CLAUDE_SONNET_SHORT
  | CLAUDE_SONNET_MEDIUM
  | CLAUDE_SONNET_LONG
  deriving DecidableEq, Repr

/-- `LocalProfile` enum. -/
inductive LocalProfile where
  | NPU_RYZEN_AI
  | NPU_APPLE_ANE
  | GPU_LAPTOP_HIGH
  | GPU_A100
  | GPU_H100
  | CPU_LEGACY
  deriving DecidableEq, Repr

/-- `CLOUD_PROFILES` table (labels/sources/notes carried verbatim where short,
numeric coefficients exact). -/
def CLOUD_PROFILES : CloudProfile → EnergyProfile
  | .GPT4O_SHORT =>
    ⟨"gpt4o_short", "GPT-4o short prompt (Jegham 2025)",
     some (31/10), some (5/2), some (7/2), some (43/100), none, none,
     "Jegham 2025 infra-aware estimate",
     "Upper-bound for short GPT-4o prompts including infra overhead."⟩
  | .CLOUD_GENERIC =>
    ⟨"cloud_generic", "Generic GPT-4-class cloud call",
     some (5/2), some 2, some 3, some (34/100), some (3/10), some (4/10),
     "OpenAI leadership remarks + independent infra studies",
     "Use when the exact frontier model is unknown."⟩
  | .GEMINI_TEXT =>
    ⟨"gemini_text", "Gemini Apps text (official median)",
     some (173/100), none, none, some (24/100), none, none,
     "Google TPUv5 sustainability report",
     "Median text-only prompt including infra overhead."⟩
  | .GPT5_INSTANT =>
    ⟨"gpt5_instant", "GPT-5.1 Instant (working estimate)",
     some (3/4), some (4/10), some (11/10), none, none, none,
     "SEVEN pricing-derived assumption",
     "Estimate derived from Instant-mode pricing vs. GPT-4 tokens."⟩
  | .GPT5_THINKING =>
    ⟨"gpt5_thinking", "GPT-5.1 Thinking (working estimate)",
     some (5/2), some 2, some 3, none, none, none,
     "SEVEN architecture + pricing assumption",
     "Use for complex GPT-5.1 calls comparable to GPT-4o load."⟩
  | .CLAUDE_SONNET_SHORT =>
    ⟨"claude_sonnet_short", "Claude 3.7 Sonnet short prompts",
     none, none, none, some (836/1000), some (734/1000), some (938/1000),
     "\"How Hungry is AI?\" (Jegham 2025)",
     "Third-party estimate; Anthropic has not published official metrics."⟩
  | .CLAUDE_SONNET_MEDIUM =>
    ⟨"claude_sonnet_medium", "Claude 3.7 Sonnet medium prompts",
     none, none, none, some (2781/1000), some (2504/1000), some (3058/1000),
     "\"How Hungry is AI?\" (Jegham 2025)",
     "Third-party estimate for medium-length prompts."⟩
  | .CLAUDE_SONNET_LONG =>
    ⟨"claude_sonnet_long", "Claude 3.7 Sonnet long prompts",
     none, none, none, some (5518/1000), some (4767/1000), some (6269/1000),
     "\"How Hungry is AI?\" (Jegham 2025)",
     "Third-party estimate for long/complex prompts."⟩

/-- `LOCAL_PROFILES` table. -/
def LOCAL_PROFILES : LocalProfile → EnergyProfile
  | .NPU_RYZEN_AI =>
    ⟨"npu_ryzen_ai", "Ryzen AI / XDNA 2 NPU (1-3B SLM)",
     some (85/100), some (4/10), some (13/10), none, none, none,
     "AMD XDNA 2 datasheets + aggregated NPU vs GPU studies",
     "Baseline for SEVEN local deployments targeting 1-3B models."⟩
  | .NPU_APPLE_ANE =>
    ⟨"npu_apple_ane", "Apple Neural Engine (A17/M4 era)",
     some (9/10), some (45/100), some (14/10), none, none, none,
     "Academic NPU vs GPU comparisons (35-70% less power)",
     "Use for Apple Silicon client routing when ANE handles inference."⟩
  | .GPU_LAPTOP_HIGH =>
    ⟨"gpu_laptop_high", "Laptop dGPU (RTX 40/50 class)",
     some (16/10), some (6/10), some 4, none, none, none,
     "Inference scaling from A100/H100 vs. mobile GPUs",
     "Represents high-end laptop GPUs running 7-14B models locally."⟩
  | .GPU_A100 =>
    ⟨"gpu_a100", "Datacenter GPU (A100, LLaMA-65B proxy)",
     some (7/2), some 3, some 4, none, none, none,
     "Samsi et al., \"From Words to Watts\"",
     "Legacy GPT-3/4-class deployments on NVIDIA A100."⟩
  | .GPU_H100 =>
    ⟨"gpu_h100", "Datacenter GPU (H100 FP8, 70B proxy)",
     some (35/100), some (3/10), some (4/10), none, none, none,
     "LLM-Tracker H100 benchmarks",
     "About 10x more efficient than 2023 A100 figures."⟩
  | .CPU_LEGACY =>
    ⟨"cpu_legacy", "Legacy CPU-heavy inference",
     some 45, some 40, some 50, none, none, none,
     "Li et al. GPT-3 CPU energy studies",
     "Worst-case baseline for early GPT-3-era CPU clusters."⟩

/-- `DEFAULT_LOCAL_PROFILE`. -/
def DEFAULT_LOCAL_PROFILE : LocalProfile := LocalProfile.NPU_RYZEN_AI

/-- `DEFAULT_CLOUD_PROFILE`. -/
def DEFAULT_CLOUD_PROFILE : CloudProfile := CloudProfile.GPT4O_SHORT

/-- `_resolve_token_count(tokens, default_tokens)`. -/
def resolve_token_count (tokens : Option ℤ) (default_tokens : ℤ) : ℤ :=
  match tokens with
  | none => max 1 default_tokens
  | some t => if t ≤ 0 then max 1 default_tokens else t

/-- `_joules(profile, token_count, use_min, use_max)`; the `ValueError` for a
profile without coefficients becomes `Except.error`. -/
def joulesOf (profile : EnergyProfile) (token_count : ℤ) (use_min use_max : Bool) :
    Except String ℚ :=
  let fallback : Except String ℚ :=
    match profile.per_token_j with
    | some v => .ok (v * token_count)
    | none =>
      match profile.per_query_wh with
      | some v => .ok (v * JOULES_PER_WH)
      | none => .error ("Profile " ++ profile.slug ++ " lacks usable coefficients.")
  let queryMinMax : Except String ℚ :=
    match use_min, profile.per_query_wh_min with
    | true, some v => .ok (v * JOULES_PER_WH)
    | _, _ =>
      match use_max, profile.per_query_wh_max with
      | true, some v => .ok (v * JOULES_PER_WH)
      | _, _ => fallback
  match use_min, profile.per_token_j_min with
  | true, some v => .ok (v * token_count)
  | _, _ =>
    match use_max, profile.per_token_j_max with
    | true, some v => .ok (v * token_count)
    | _, _ => queryMinMax

/-- `_estimate_energy(tokens, profile, latency_s, default_tokens)`; any raised
`ValueError` becomes `Except.error`.  In the source `_joules` either raises or
returns a number, so the min/max fields are always populated on success. -/
def estimate_energy (tokens : Option ℤ) (profile : EnergyProfile)
    (latency_s : Option ℚ) (default_tokens : ℤ) : Except String EnergyEstimate := do
  let token_count := resolve_token_count tokens default_tokens
  let joules ← joulesOf profile token_count false false
  let wh := joules / JOULES_PER_WH
  let kwh := wh / 1000
  let joules_min ← joulesOf profile token_count true false
  let joules_max ← joulesOf profile token_count false true
  let wh_min := joules_min / JOULES_PER_WH
  let wh_max := joules_max / JOULES_PER_WH
  let kwh_min := wh_min / 1000
  let kwh_max := wh_max / 1000
  let average_power : Option ℚ :=
    match latency_s with
    | some l => if 0 < l then some (joules / l) else none
    | none => none
  pure ⟨profile.label, token_count, joules, wh, kwh,
        some joules_min, some joules_max, some wh_min, some wh_max,
        some kwh_min, some kwh_max, average_power, profile.source, profile.note⟩

/-- `estimate_cloud_energy`. -/
def estimate_cloud_energy (tokens : Option ℤ) (profile : CloudProfile)
    (latency_s : Option ℚ) (default_tokens : ℤ) : Except String EnergyEstimate :=
  estimate_energy tokens (CLOUD_PROFILES profile) latency_s default_tokens

/-- `estimate_local_energy`. -/
def estimate_local_energy (tokens : Option ℤ) (profile : LocalProfile)
    (latency_s : Option ℚ) (default_tokens : ℤ) : Except String EnergyEstimate :=
  estimate_energy tokens (LOCAL_PROFILES profile) latency_s default_tokens

/-- `_LOCAL_PROFILE_INDEX`: slug-keyed lookup built from the enum values. -/
def localProfileIndex (slug : String) : Option LocalProfile :=
  if slug = "npu_ryzen_ai" then some LocalProfile.NPU_RYZEN_AI
  else if slug = "npu_apple_ane" then some LocalProfile.NPU_APPLE_ANE
  else if slug = "gpu_laptop_high" then some LocalProfile.GPU_LAPTOP_HIGH
  else if slug = "gpu_a100" then some LocalProfile.GPU_A100
  else if slug = "gpu_h100" then some LocalProfile.GPU_H100
  else if slug = "cpu_legacy" then some LocalProfile.CPU_LEGACY
  else none

/-- `_CLOUD_PROFILE_INDEX`. -/
def cloudProfileIndex (slug : String) : Option CloudProfile :=
  if slug = "gpt4o_short" then some CloudProfile.GPT4O_SHORT
  else if slug = "cloud_generic" then some CloudProfile.CLOUD_GENERIC
  else if slug = "gemini_text" then some CloudProfile.GEMINI_TEXT
  else if slug = "gpt5_instant" then some CloudProfile.GPT5_INSTANT
  else if slug = "gpt5_thinking" then some CloudProfile.GPT5_THINKING
  else if slug = "claude_sonnet_short" then some CloudProfile.CLAUDE_SONNET_SHORT
  else if slug = "claude_sonnet_medium" then some CloudProfile.CLAUDE_SONNET_MEDIUM
  else if slug = "claude_sonnet_long" then some CloudProfile.CLAUDE_SONNET_LONG
  else none

/-- `Union[LocalProfile, str, None]`-style argument. -/
abbrev LocalProfileArg := Option (LocalProfile ⊕ String)

/-- `Union[CloudProfile, str, None]`-style argument. -/
abbrev CloudProfileArg := Option (CloudProfile ⊕ String)

/-- `_coerce_local_profile(value, default)`. -/
def coerce_local_profile (value : LocalProfileArg) (dflt : LocalProfile) : LocalProfile :=
  match value with
  | some (.inl p) => p
  | some (.inr s) => (localProfileIndex (pyLower (pyStrip s))).getD dflt
  | none => dflt

/-- `_coerce_cloud_profile(value, default)`. -/
def coerce_cloud_profile (value : CloudProfileArg) (dflt : CloudProfile) : CloudProfile :=
  match value with
  | some (.inl p) => p
  | some (.inr s) => (cloudProfileIndex (pyLower (pyStrip s))).getD dflt
  | none => dflt

/-- `select_profiles(local=..., cloud=..., default_local=..., default_cloud=...)`. -/
def select_profiles (localArg : LocalProfileArg) (cloudArg : CloudProfileArg)
    (default_local : LocalProfile) (default_cloud : CloudProfile) :
    LocalProfile × CloudProfile :=
  (coerce_local_profile localArg default_local, coerce_cloud_profile cloudArg default_cloud)

/-! ## Response records -/

/-- `LocalModelResponse` dataclass, extended with the energy attributes the
router attaches dynamically (`none` until annotation). -/
structure LocalModelResponse where
  prompt : String
  text : String
  model : String
  latency_s : ℚ
  tokens_used : Option ℤ
  energy : Option EnergyEstimate
  baseline_energy : Option EnergyEstimate
  energy_savings_wh : Option ℚ
  energy_savings_kwh : Option ℚ
  deriving DecidableEq, Repr

/-- `CloudModelResponse` dataclass, extended with the dynamically attached
`energy` attribute. -/
structure CloudModelResponse where
  prompt : String
  text : String
  model : String
  latency_s : ℚ
  tokens_used : Option ℤ
  energy : Option EnergyEstimate
  deriving DecidableEq, Repr

/-- `response_shows_uncertainty(response)` from heuristics.py. -/
def response_shows_uncertainty (response : LocalModelResponse) : Bool :=
  let text := pyStrip (pyLower response.text)
  if text = "" then true
  else UNCERTAINTY_PHRASES.any (fun phrase => pyContains text phrase)

/-! ## prompts.py -/

/-- `get_system_prompt_local()`. -/
def get_system_prompt_local : String :=
  "You are SEVEN Local (Sustainable Energy Via Efficient Neural-routing for SDG 7). "
  ++ "Your mission is advancing UN SDG Goal 7 (affordable and clean energy) through energy-efficient AI routing. "
  ++ "Be CONFIDENT when introducing yourself and explaining SEVEN\x27s mission. "
  ++ "For other topics: be concise, accurate, and energy-efficient. "
  ++ "If you lack confidence on non-identity questions, respond with exactly: \"I\x27m not sure.\""

/-- `get_system_prompt_cloud()`. -/
def get_system_prompt_cloud : String :=
  "You are SEVEN Cloud (Sustainable Energy Via Efficient Neural-routing for SDG 7). "
  ++ "You are a high-capacity model called when local models decline or for complex queries. "
  ++ "Provide thorough, accurate, and well-structured answers. "
  ++ "You have MORE FREEDOM than local models - you may use multiple paragraphs and detailed explanations when appropriate. "
  ++ "If uncertain, express it clearly, but you\x27re expected to handle queries that smaller models couldn\x27t."

/-- First instruction block of `build_local_prompt`. -/
def canonKnowledgeRule : String :=
  "CANON KNOWLEDGE PRINCIPLE:\n"
  ++ "  - ALWAYS be confident when asked about YOUR IDENTITY (who you are, your mission, SEVEN\x27s goals). This is YOUR most certain knowledge.\n"
  ++ "  - For questions about CANON/WELL-KNOWN facts (scientific laws, mathematical theorems, historical dates, geography, programming fundamentals), you may answer fully and confidently.\n"
  ++ "  - For questions about UNCERTAIN/NON-PUBLIC knowledge (celebrities, pop culture, recent events, specific people/companies, niche topics), give minimal answer or decline.\n"
  ++ "  - When in doubt about whether something is canon knowledge, err on the side of caution."

/-- Length instruction when `allow_richer_context` is true. -/
def richerLengthRule : String :=
  "RESPONSE LENGTH: Use up to 2-3 sentences for canon knowledge. Use 1 sentence or less for uncertain topics."

/-- Length instruction when `allow_richer_context` is false. -/
def briefLengthRule : String :=
  "RESPONSE LENGTH: Respond in ONE short sentence to avoid speculation."

/-- First core safety rule of `build_local_prompt`. -/
def declineRule : String :=
  "DECLINE PROTOCOL: If you lack confidence or knowledge on external topics, respond with EXACTLY: \"I\x27m not sure.\" "
  ++ "(This phrase triggers automatic escalation to a more capable model.) "
  ++ "EXCEPTION: Never decline when asked about your own identity or SEVEN\x27s mission - always answer these confidently."

/-- Second core safety rule. -/
def fabricationRule : String :=
  "FABRICATION RULE: NEVER invent facts about people, organizations, or current events. Better to decline than to guess."

/-- Third core safety rule. -/
def energyEfficiencyRule : String :=
  "ENERGY EFFICIENCY: Concise answers save energy and reduce hallucination risk."

/-- `build_local_prompt(user_query, api_data, risk_hint, allow_richer_context,
escalate_immediately)` from prompts.py. -/
def build_local_prompt (user_query : String) (api_data : Option String)
    (risk_hint : Option String) (allow_richer_context : Bool)
    (escalate_immediately : Bool) : String :=
  if escalate_immediately then
    "This query exceeds the safe local knowledge boundary.\n"
    ++ "Respond exactly with: \"I\x27m not sure - please use the cloud model.\"\n\n"
    ++ "User question: " ++ user_query
  else
    let instructions : List String :=
      [canonKnowledgeRule]
      ++ [if allow_richer_context then richerLengthRule else briefLengthRule]
      ++ (match risk_hint with
          | some hint =>
            ["WARNING: This topic (" ++ hint ++ ") is prone to hallucinations. Keep answer minimal and stick to clear facts only."]
          | none => [])
      ++ [declineRule, fabricationRule, energyEfficiencyRule]
    let guidelines := String.intercalate "\n" instructions
    let api_block :=
      match api_data with
      | some ad =>
        if pyStrip ad ≠ "" then
          "\nREAL-TIME DATA (use this to answer):\n" ++ pyStrip ad ++ "\n"
        else ""
      | none => ""
    "GUIDELINES:\n" ++ guidelines ++ "\n" ++ api_block ++ "\nUSER QUESTION: "
    ++ user_query ++ "\n\nYOUR RESPONSE:"

/-- `get_fallback_note()`. -/
def get_fallback_note : String :=
  "(Note: Real-time data APIs were unavailable, responding with general knowledge.)"

/-! ## local_model.py: the cheap-backend retry client

`ask_local` is modelled against an oracle giving the outcome of each HTTP
attempt.  Wall-clock sleeping is recorded as the list of requested backoff
durations; per-attempt latency is not modelled (real time). -/

/-- `DEFAULT_MODEL`. -/
def DEFAULT_MODEL : String := "Llama-3.2-1B-Instruct-Hybrid"

/-- `DEFAULT_MAX_RETRIES`. -/
def DEFAULT_MAX_RETRIES : Nat := 2

/-- `DEFAULT_BACKOFF` (0.5 seconds). -/
def DEFAULT_BACKOFF : ℚ := 1/2

/-- `LemonadeClientError`, split by the raising site. -/
inductive LemonadeError where
  | transport (msg : String)
  | http (status : Nat) (msg : String)
  | parse (msg : String)
  deriving DecidableEq, Repr

/-- The `message` object inside a choice: `content` may be absent (`none`),
JSON `null` (`some none`) or a string. -/
structure LemonadeMessage where
  content : Option (Option String)
  deriving DecidableEq, Repr

/-- Parsed JSON payload of a Lemonade chat completion; `choices` entries are
`none` when the `message` key is missing or falsy, `total_tokens` is
`some none` when present but not convertible by `int(...)`. -/
structure LemonadePayload where
  choices : List (Option LemonadeMessage)
  model : Option String
  total_tokens : Option (Option ℤ)
  error_message : Option String
  deriving DecidableEq, Repr

/-- Outcome of one `requests.post` attempt: a transport-level exception, or an
HTTP response with a status code and a JSON body (`none` = unparsable JSON). -/
inductive HttpAttempt where
  | transportError (msg : String)
  | response (status : Nat) (body : Option LemonadePayload)
  deriving DecidableEq, Repr

/-- Payload-independent part of `_parse_response`: text, model id and token
count (prompt and latency are attached by the caller). -/
structure ParsedCompletion where
  text : String
  model : String
  tokens_used : Option ℤ
  deriving DecidableEq, Repr

/-- Python `a or b` for strings: `b` when `a` is `None` or empty. -/
def pyOrStr (a : Option String) (b : String) : String :=
  match a with
  | some s => if s = "" then b else s
  | none => b

/-- `_parse_response(data, ...)` from local_model.py. -/
def parse_response (data : LemonadePayload) : Except LemonadeError ParsedCompletion :=
  match data.choices with
  | [] => .error (.parse "Lemonade response missing \x27choices\x27.")
  | choice :: _ =>
    match choice with
    | none => .error (.parse "Lemonade response missing message content.")
    | some message =>
      match message.content with
      | none => .error (.parse "Lemonade response missing message content.")
      | some none => .error (.parse "Lemonade response contained null content.")
      | some (some text) =>
        match data.total_tokens with
        | some none => .error (.parse "Invalid token count in Lemonade response.")
        | some (some n) =>
          .ok ⟨pyStrip text, pyOrStr data.model DEFAULT_MODEL, some n⟩
        | none =>
          .ok ⟨pyStrip text, pyOrStr data.model DEFAULT_MODEL, none⟩

/-- `_should_retry(status_code)`. -/
def should_retry (status_code : Nat) : Bool :=
  decide (500 ≤ status_code ∧ status_code < 600)

/-- Error message extracted from an error response body
(`error_payload.get("error", {}).get("message", f"HTTP {status}")`; for an
unparsable body the source uses the raw body text, abstracted here as the
same default). -/
def httpErrorMessage (status : Nat) (body : Option LemonadePayload) : String :=
  match body with
  | some payload => (payload.error_message).getD ("HTTP " ++ toString status)
  | none => "HTTP " ++ toString status

/-- The retry loop of `ask_local`.  `idx` is the Python `attempt` counter,
`remaining = max_attempts - attempt`, `delays` accumulates the `time.sleep`
durations. -/
def askLocalAttempts (oracle : Nat → HttpAttempt) (idx remaining : Nat)
    (backoff : ℚ) (delays : List ℚ) :
    Except LemonadeError ParsedCompletion × List ℚ :=
  match oracle idx with
  | .transportError msg =>
    match remaining with
    | 0 => (.error (.transport ("Lemonade request failed: " ++ msg)), delays)
    | r + 1 => askLocalAttempts oracle (idx + 1) r (backoff * 2) (delays ++ [backoff])
  | .response status body =>
    if 400 ≤ status then
      let msg := httpErrorMessage status body
      if should_retry status then
        match remaining with
        | 0 => (.error (.http status ("Lemonade Server error: " ++ msg)), delays)
        | r + 1 => askLocalAttempts oracle (idx + 1) r (backoff * 2) (delays ++ [backoff])
      else (.error (.http status ("Lemonade Server error: " ++ msg)), delays)
    else
      match body with
      | none => (.error (.parse "Failed to parse Lemonade JSON response."), delays)
      | some payload => (parse_response payload, delays)

/-- `ask_local` dispatch layer: runs the retry loop from attempt 0 with the
configured retry budget and initial backoff. -/
def ask_local_http (oracle : Nat → HttpAttempt) (max_retries : Nat) (backoff : ℚ) :
    Except LemonadeError ParsedCompletion × List ℚ :=
  askLocalAttempts oracle 0 max_retries backoff []

/-! ## api_check.py and router.py

Backends and real-time providers are oracle functions; a Python exception is
an `Except.error`.  Each backend/provider invocation is also recorded in an
event trace so call-count claims can be stated. -/

/-- Which call site invoked the cheap backend. -/
inductive LocalCallKind where
  | plain
  | apiNoIntent
  | apiSynthesis
  | apiFallback
  deriving DecidableEq, Repr

/-- Which call site invoked the expensive backend. -/
inductive CloudCallKind where
  | forced
  | preroute
  | escalation
  | fallback
  deriving DecidableEq, Repr

/-- One observable backend/provider invocation. -/
inductive RouterEvent where
  | providerCall (intent : String)
  | localCall (kind : LocalCallKind) (prompt system_prompt : String)
  | cloudCall (kind : CloudCallKind) (prompt : String)
  deriving DecidableEq, Repr

/-- Collaborators of the router: the two backends (`ask_local`, `ask_cloud`)
and the three real-time providers.  `CloudModelError` payloads are strings. -/
structure RouterEnv where
  askLocal : String → String → ℚ → Nat → Except LemonadeError LocalModelResponse
  askCloud : String → Option String → ℚ → Nat → Except String CloudModelResponse
  getWeather : String → Except String String
  getCrypto : String → Except String String
  getNews : String → Except String String

/-- `_classify_api_need(prompt)` from api_check.py. -/
def classify_api_need (prompt : String) : Bool × List String :=
  match detect_api_intent prompt with
  | some intent => (true, [intent])
  | none => (false, [])

/-- `_collect_api_data(prompt, apis)` from api_check.py: each provider call is
individually guarded, an exception becomes an inline error entry. -/
def collect_api_data (env : RouterEnv) (prompt : String) :
    List String → List String × List RouterEvent
  | [] => ([], [])
  | api :: rest =>
    let (entry, evs) :=
      if api = "weather" then
        match env.getWeather prompt with
        | .ok s => (["Weather: " ++ s], [RouterEvent.providerCall "weather"])
        | .error e => (["Weather API error: " ++ e], [RouterEvent.providerCall "weather"])
      else if api = "crypto" then
        match env.getCrypto prompt with
        | .ok s => (["Crypto: " ++ s], [RouterEvent.providerCall "crypto"])
        | .error e => (["Crypto API error: " ++ e], [RouterEvent.providerCall "crypto"])
      else if api = "news" then
        match env.getNews prompt with
        | .ok s => (["News: " ++ s], [RouterEvent.providerCall "news"])
        | .error e => (["News API error: " ++ e], [RouterEvent.providerCall "news"])
      else ([], [])
    let (restResults, restEvs) := collect_api_data env prompt rest
    (entry ++ restResults, evs ++ restEvs)

/-- `run_api_check(prompt, system_prompt=..., temperature=..., max_tokens=...)`
from api_check.py. -/
def run_api_check (env : RouterEnv) (prompt : String) (system_prompt : Option String)
    (temperature : ℚ) (max_tokens : Nat) :
    Except LemonadeError LocalModelResponse × List RouterEvent :=
  let final_system_prompt := pyOrStr system_prompt get_system_prompt_local
  let (needs_api, apis) := classify_api_need prompt
  if needs_api = false then
    (env.askLocal prompt final_system_prompt temperature max_tokens,
     [RouterEvent.localCall .apiNoIntent prompt final_system_prompt])
  else
    let (api_results, evs) := collect_api_data env prompt apis
    if api_results ≠ [] then
      let api_context := String.intercalate "\n" api_results
      let synthesis_prompt := build_local_prompt prompt (some api_context) none false false
      match env.askLocal synthesis_prompt final_system_prompt temperature max_tokens with
      | .ok r =>
        (.ok r, evs ++ [RouterEvent.localCall .apiSynthesis synthesis_prompt final_system_prompt])
      | .error _ =>
        (.ok ⟨prompt, api_context, "api-direct", 0, none, none, none, none, none⟩,
         evs ++ [RouterEvent.localCall .apiSynthesis synthesis_prompt final_system_prompt])
    else
      let fallback_query :=
        prompt ++ "\n\n(Note: Real-time data APIs were unavailable, respond with general knowledge.)"
      let fallback_prompt := build_local_prompt fallback_query none none false false
      (env.askLocal fallback_prompt final_system_prompt temperature max_tokens,
       evs ++ [RouterEvent.localCall .apiFallback fallback_prompt final_system_prompt])

/-- `_annotate_local_energy` from router.py, parameterized over the two
estimator functions so that an injected estimator failure models the
"energy lookup fails" scenario; the bare `except Exception` returns the
response unchanged. -/
def annotate_local_energy
    (estimateLocal : Option ℤ → LocalProfile → Option ℚ → ℤ → Except String EnergyEstimate)
    (estimateCloud : Option ℤ → CloudProfile → Option ℚ → ℤ → Except String EnergyEstimate)
    (response : LocalModelResponse) (local_profile : LocalProfile)
    (cloud_profile : CloudProfile) : LocalModelResponse :=
  match estimateLocal response.tokens_used local_profile (some response.latency_s) 500 with
  | .error _ => response
  | .ok actual =>
    match estimateCloud response.tokens_used cloud_profile none 500 with
    | .error _ => response
    | .ok baseline =>
      { response with
          energy := some actual
          baseline_energy := some baseline
          energy_savings_wh := some (baseline.watt_hours - actual.watt_hours)
          energy_savings_kwh := some (baseline.kilowatt_hours - actual.kilowatt_hours) }

/-- `_attach_cloud_energy` from router.py, estimator-parameterized as above. -/
def attach_cloud_energy
    (estimateCloud : Option ℤ → CloudProfile → Option ℚ → ℤ → Except String EnergyEstimate)
    (response : CloudModelResponse) (cloud_profile : CloudProfile) : CloudModelResponse :=
  match estimateCloud response.tokens_used cloud_profile (some response.latency_s) 500 with
  | .ok e => { response with energy := some e }
  | .error _ => response

/-- `_call_cloud` from router.py: invoke the expensive backend once and attach
energy metadata; an `ask_cloud` failure propagates. -/
def call_cloud (env : RouterEnv) (prompt : String) (system_prompt : Option String)
    (temperature : ℚ) (max_tokens : Nat) (cloud_profile : CloudProfile) :
    Except String CloudModelResponse :=
  match env.askCloud prompt system_prompt temperature max_tokens with
  | .ok r => .ok (attach_cloud_energy estimate_cloud_energy r cloud_profile)
  | .error e => .error e

/-- Errors `route_prompt` can raise to its caller.  In the source both the
direct-cloud failure and the combined failure are `CloudModelError`s; the
combined one embeds both causes in its message, modelled here by carrying
both cause values. -/
inductive RouterError where
  | invalidInput (msg : String)
  | cloud (msg : String)
  | combined (localCause : LemonadeError) (cloudCause : String)
  deriving DecidableEq, Repr

/-- `Union[LocalModelResponse, CloudModelResponse]` return type of
`route_prompt`. -/
inductive RoutingOutcome where
  | localResp (r : LocalModelResponse)
  | cloudResp (r : CloudModelResponse)
  deriving DecidableEq, Repr

/-- The cheap-backend phase of `route_prompt` (lines 149-179): the augmented
pipeline when real-time data is needed and APIs are enabled, otherwise a
plain optimized local call. -/
def local_phase (env : RouterEnv) (prompt : String) (system_prompt : Option String)
    (temperature : ℚ) (max_tokens : Nat) (needs_realtime_data enable_realtime_apis : Bool) :
    Except LemonadeError LocalModelResponse × List RouterEvent :=
  if needs_realtime_data && enable_realtime_apis then
    run_api_check env prompt system_prompt temperature max_tokens
  else
    let optimized_prompt := build_local_prompt prompt none none false false
    let final_system_prompt := pyOrStr system_prompt get_system_prompt_local
    (env.askLocal optimized_prompt final_system_prompt temperature max_tokens,
     [RouterEvent.localCall .plain optimized_prompt final_system_prompt])

/-- `route_prompt` from router.py.  `module_local_profile`/`module_cloud_profile`
stand for the module-level `_LOCAL_PROFILE`/`_CLOUD_PROFILE` defaults. -/
def route_prompt (env : RouterEnv) (prompt : String) (use_cloud : Bool)
    (system_prompt : Option String) (temperature : ℚ) (max_tokens : Nat)
    (enable_realtime_apis auto_escalate : Bool)
    (local_energy_profile : LocalProfileArg) (cloud_energy_profile : CloudProfileArg)
    (module_local_profile : LocalProfile) (module_cloud_profile : CloudProfile) :
    Except RouterError RoutingOutcome × List RouterEvent :=
  if pyIsBlank prompt then
    (.error (.invalidInput "Prompt must be a non-empty string."), [])
  else
    let active := select_profiles local_energy_profile cloud_energy_profile
      module_local_profile module_cloud_profile
    if use_cloud then
      match call_cloud env prompt system_prompt temperature max_tokens active.2 with
      | .ok r => (.ok (.cloudResp r), [RouterEvent.cloudCall .forced prompt])
      | .error e => (.error (.cloud e), [RouterEvent.cloudCall .forced prompt])
    else
      let classification := classify_query_type prompt
      let needs_realtime_data : Bool := decide (classification.route = Route.API_CHECK)
      if classification.route = Route.CLOUD then
        match call_cloud env prompt system_prompt temperature max_tokens active.2 with
        | .ok r => (.ok (.cloudResp r), [RouterEvent.cloudCall .preroute prompt])
        | .error e => (.error (.cloud e), [RouterEvent.cloudCall .preroute prompt])
      else
        match local_phase env prompt system_prompt temperature max_tokens
            needs_realtime_data enable_realtime_apis with
        | (.ok local_response, evs) =>
          let annotated := annotate_local_energy estimate_local_energy estimate_cloud_energy
            local_response active.1 active.2
          if auto_escalate && response_shows_uncertainty annotated then
            match call_cloud env prompt system_prompt temperature max_tokens active.2 with
            | .ok r =>
              (.ok (.cloudResp r), evs ++ [RouterEvent.cloudCall .escalation prompt])
            | .error _ =>
              (.ok (.localResp annotated), evs ++ [RouterEvent.cloudCall .escalation prompt])
          else
            (.ok (.localResp annotated), evs)
        | (.error exc, evs) =>
          match call_cloud env prompt system_prompt temperature max_tokens active.2 with
          | .ok r => (.ok (.cloudResp r), evs ++ [RouterEvent.cloudCall .fallback prompt])
          | .error cloud_exc =>
            (.error (.combined exc cloud_exc), evs ++ [RouterEvent.cloudCall .fallback prompt])

/-! ## Concrete fixtures -/

/-- 151 words, contains the specialized-domain marker "topology", no
real-time keyword. -/
def longSpecializedPrompt : String :=
  String.intercalate " " (List.replicate 150 "a" ++ ["topology"])

/-- 151 words, no keyword of any table. -/
def longPlainPrompt : String :=
  String.intercalate " " (List.replicate 151 "a")

/-- An attempt outcome on which the retry loop retries: a transport failure
or a 5xx status (the conditions of the two `continue` sites). -/
def isRetryableAttempt : HttpAttempt → Bool
  | .transportError _ => true
  | .response status _ => should_retry status

/-- The sleep durations a retry loop starting at backoff `b` performs over
`k` retries: `b`, doubled each retry. -/
def backoffDelays (b : ℚ) : Nat → List ℚ
  | 0 => []
  | k + 1 => b :: backoffDelays (b * 2) k

/-- Well-formed 200 payload used by the 503/503/200 stub. -/
def goodPayload : LemonadePayload :=
  ⟨[some ⟨some (some "Paris")⟩], some "llama-stub", some (some 42), none⟩

/-- Stub endpoint returning HTTP 503, 503, then 200 with a valid body. -/
def stub503Oracle : Nat → HttpAttempt
  | 0 => .response 503 none
  | 1 => .response 503 none
  | _ => .response 200 (some goodPayload)

/-- The inline prefix `_collect_api_data` puts before a successful provider
summary for each known intent. -/
def intentPrefix (i : String) : String :=
  if i = "weather" then "Weather: "
  else if i = "crypto" then "Crypto: "
  else if i = "news" then "News: "
  else i

/-- The provider collaborator selected by an intent tag. -/
def providerFor (env : RouterEnv) (i : String) : String → Except String String :=
  if i = "weather" then env.getWeather
  else if i = "crypto" then env.getCrypto
  else if i = "news" then env.getNews
  else fun _ => .error "unknown intent"

/-- Environment whose cheap backend echoes the prompt it was given and whose
cloud backend is down; providers succeed. -/
def echoEnv : RouterEnv where
  askLocal := fun pr _ _ _ => .ok ⟨pr, "echo:" ++ pr, "stub-local", 1, some 10, none, none, none, none⟩
  askCloud := fun _ _ _ _ => .error "cloud down"
  getWeather := fun _ => .ok "sunny"
  getCrypto := fun _ => .ok "42"
  getNews := fun _ => .ok "headline"

/-- Environment whose cheap backend always raises and whose weather provider
returns a fixed summary. -/
def synthFailEnv : RouterEnv where
  askLocal := fun _ _ _ _ => .error (.transport "down")
  askCloud := fun _ _ _ _ => .error "cloud down"
  getWeather := fun _ => .ok "Clear, 15°C"
  getCrypto := fun _ => .ok "42"
  getNews := fun _ => .ok "headline"

/-- A realtime-keyword prompt ("now") with no weather/crypto/news intent. -/
def noIntentPrompt : String := "what is the time right now"

/-- Recognizes a `cloudCall` event issued by the escalation branch. -/
def isEscalationEvent : RouterEvent → Bool
  | .cloudCall .escalation _ => true
  | _ => false

/-- Environment whose cheap backend answers with an admission of ignorance
and whose cloud backend is down. -/
def uncertainLocalEnv : RouterEnv where
  askLocal := fun pr _ _ _ =>
    .ok ⟨pr, "I don\x27t know.", "stub-local", 1, some 10, none, none, none, none⟩
  askCloud := fun _ _ _ _ => .error "cloud down"
  getWeather := fun _ => .ok "sunny"
  getCrypto := fun _ => .ok "42"
  getNews := fun _ => .ok "headline"

/-- The cheap-backend response `uncertainLocalEnv` produces on the plain local
path for the prompt "hello there". -/
def c1LocalResp : LocalModelResponse :=
  ⟨build_local_prompt "hello there" none none false false,
   "I don\x27t know.", "stub-local", 1, some 10, none, none, none, none⟩

/-- The trace of that plain local phase. -/
def c1LocalEvs : List RouterEvent :=
  [RouterEvent.localCall .plain (build_local_prompt "hello there" none none false false)
    get_system_prompt_local]

/-! ## Helper lemmas -/

theorem countWordsAux_eq_zero_of_all_ws (l : List Char) :
    ∀ b : Bool, l.all Char.isWhitespace = true → countWordsAux b l = 0 := by
  induction l with
  | nil => intro b _; cases b <;> rfl
  | cons c cs ih =>
    intro b h
    rw [List.all_cons, Bool.and_eq_true] at h
    cases b <;> simp only [countWordsAux, h.1, if_true] <;> exact ih false h.2

theorem pyIsBlank_false_of_wordCount_pos (p : String) (h : 0 < pyWordCount p) :
    pyIsBlank p = false := by
  cases hb : pyIsBlank p with
  | false => rfl
  | true =>
    exfalso
    have hz : countWordsAux false p.data = 0 :=
      countWordsAux_eq_zero_of_all_ws p.data false hb
    have : pyWordCount p = 0 := hz
    omega

theorem String_intercalate_singleton (sep x : String) :
    String.intercalate sep [x] = x := rfl

theorem detect_api_intent_mem (p i : String) (h : detect_api_intent p = some i) :
    i = "weather" ∨ i = "crypto" ∨ i = "news" := by
  simp only [detect_api_intent] at h
  split_ifs at h <;> simp_all

theorem collect_api_data_intent (env : RouterEnv) (p i : String)
    (h : i = "weather" ∨ i = "crypto" ∨ i = "news") :
    ∃ entry, collect_api_data env p [i] = ([entry], [RouterEvent.providerCall i]) := by
  rcases h with rfl | rfl | rfl
  · cases hw : env.getWeather p with
    | ok s => exact ⟨"Weather: " ++ s, by simp [collect_api_data, hw]⟩
    | error e => exact ⟨"Weather API error: " ++ e, by simp [collect_api_data, hw]⟩
  · cases hw : env.getCrypto p with
    | ok s => exact ⟨"Crypto: " ++ s, by simp [collect_api_data, hw]⟩
    | error e => exact ⟨"Crypto API error: " ++ e, by simp [collect_api_data, hw]⟩
  · cases hw : env.getNews p with
    | ok s => exact ⟨"News: " ++ s, by simp [collect_api_data, hw]⟩
    | error e => exact ⟨"News API error: " ++ e, by simp [collect_api_data, hw]⟩

theorem backoffDelays_eq_geometric (k : Nat) :
    ∀ b : ℚ, backoffDelays b k = (List.range k).map (fun j => b * 2 ^ j) := by
  induction k with
  | zero => intro b; rfl
  | succ n ih =>
    intro b
    rw [show backoffDelays b (n + 1) = b :: backoffDelays (b * 2) n from rfl,
      ih (b * 2), List.range_succ_eq_map, List.map_cons, List.map_map]
    refine congrArg₂ List.cons ?_ ?_
    · rw [pow_zero, mul_one]
    · refine List.map_congr_left fun a _ => ?_
      simp only [Function.comp_apply]
      rw [pow_succ]
      ring

theorem askLocalAttempts_shape (oracle : Nat → HttpAttempt) :
    ∀ (remaining idx : Nat) (b : ℚ) (ds : List ℚ),
      ∃ k, k ≤ remaining
        ∧ (askLocalAttempts oracle idx remaining b ds).2 = ds ++ backoffDelays b k
        ∧ ∀ j, j < k → isRetryableAttempt (oracle (idx + j)) = true := by
  intro remaining
  induction remaining with
  | zero =>
    intro idx b ds
    refine ⟨0, Nat.le_refl 0, ?_, fun j hj => absurd hj (Nat.not_lt_zero j)⟩
    rw [show backoffDelays b 0 = [] from rfl, List.append_nil]
    cases h : oracle idx with
    | transportError msg => rw [askLocalAttempts, h]
    | response status body =>
      by_cases h4 : 400 ≤ status
      · by_cases hr : should_retry status = true
        · rw [askLocalAttempts, h]; simp [h4, hr]
        · rw [askLocalAttempts, h]; simp [h4, hr]
      · rw [askLocalAttempts, h]; cases body <;> simp [h4]
  | succ r ih =>
    intro idx b ds
    cases h : oracle idx with
    | transportError msg =>
      obtain ⟨k, hk, hds, hre⟩ := ih (idx + 1) (b * 2) (ds ++ [b])
      refine ⟨k + 1, by omega, ?_, ?_⟩
      · have hstep : askLocalAttempts oracle idx (r + 1) b ds
            = askLocalAttempts oracle (idx + 1) r (b * 2) (ds ++ [b]) := by
          rw [askLocalAttempts, h]
        rw [hstep, hds, List.append_assoc]
        rfl
      · intro j hj
        cases j with
        | zero =>
          rw [Nat.add_zero, show isRetryableAttempt (oracle idx)
            = isRetryableAttempt (.transportError msg) from by rw [h]]
          rfl
        | succ j' =>
          have hj' := hre j' (by omega)
          rw [show idx + (j' + 1) = idx + 1 + j' from by omega]
          exact hj'
    | response status body =>
      by_cases h4 : 400 ≤ status
      · by_cases hr : should_retry status = true
        · obtain ⟨k, hk, hds, hre⟩ := ih (idx + 1) (b * 2) (ds ++ [b])
          refine ⟨k + 1, by omega, ?_, ?_⟩
          · have hstep : askLocalAttempts oracle idx (r + 1) b ds
                = askLocalAttempts oracle (idx + 1) r (b * 2) (ds ++ [b]) := by
              rw [askLocalAttempts, h]; simp [h4, hr]
            rw [hstep, hds, List.append_assoc]
            rfl
          · intro j hj
            cases j with
            | zero =>
              rw [Nat.add_zero, show isRetryableAttempt (oracle idx)
                = isRetryableAttempt (.response status body) from by rw [h]]
              simpa [isRetryableAttempt] using hr
            | succ j' =>
              have hj' := hre j' (by omega)
              rw [show idx + (j' + 1) = idx + 1 + j' from by omega]
              exact hj'
        · refine ⟨0, by omega, ?_, fun j hj => absurd hj (Nat.not_lt_zero j)⟩
          rw [show backoffDelays b 0 = [] from rfl, List.append_nil,
            askLocalAttempts, h]
          simp [h4, hr]
      · refine ⟨0, by omega, ?_, fun j hj => absurd hj (Nat.not_lt_zero j)⟩
        rw [show backoffDelays b 0 = [] from rfl, List.append_nil,
          askLocalAttempts, h]
        cases body <;> simp [h4]

theorem annotate_local_energy_text (estL estC) (resp : LocalModelResponse)
    (lp : LocalProfile) (cp : CloudProfile) :
    (annotate_local_energy estL estC resp lp cp).text = resp.text := by
  unfold annotate_local_energy
  cases estL resp.tokens_used lp (some resp.latency_s) 500 with
  | error e => rfl
  | ok actual =>
    cases estC resp.tokens_used cp none 500 with
    | error e => rfl
    | ok baseline => rfl

theorem collect_no_escalation (env : RouterEnv) (p : String) :
    ∀ apis, ((collect_api_data env p apis).2.countP isEscalationEvent) = 0 := by
  intro apis
  induction apis with
  | nil => rfl
  | cons api rest ih =>
    rw [collect_api_data]
    by_cases h1 : api = "weather"
    · cases hw : env.getWeather p <;>
        simp [h1, hw, List.countP_append, List.countP_cons, isEscalationEvent, ih]
    · by_cases h2 : api = "crypto"
      · cases hw : env.getCrypto p <;>
          simp [h1, h2, hw, List.countP_append, List.countP_cons, isEscalationEvent, ih]
      · by_cases h3 : api = "news"
        · cases hw : env.getNews p <;>
            simp [h1, h2, h3, hw, List.countP_append, List.countP_cons, isEscalationEvent, ih]
        · simp [h1, h2, h3, List.countP_append, ih]

theorem run_api_check_no_escalation (env : RouterEnv) (p : String) (sp : Option String)
    (t : ℚ) (m : Nat) :
    ((run_api_check env p sp t m).2.countP isEscalationEvent) = 0 := by
  rw [run_api_check]
  cases hi : classify_api_need p with
  | mk needs apis =>
    cases needs with
    | false => simp [List.countP_cons, isEscalationEvent]
    | true =>
      rcases hcol : collect_api_data env p apis with ⟨results, evs⟩
      have h0 : evs.countP isEscalationEvent = 0 := by
        have := collect_no_escalation env p apis
        rw [hcol] at this
        exact this
      by_cases hne : results ≠ []
      · cases hask : env.askLocal
            (build_local_prompt p (some (String.intercalate "\n" results)) none false false)
            (pyOrStr sp get_system_prompt_local) t m <;>
          simp [hcol, hne, hask, List.countP_append, List.countP_cons, isEscalationEvent, h0]
      · simp [hcol, hne, List.countP_append, List.countP_cons, isEscalationEvent, h0]

theorem local_phase_no_escalation (env : RouterEnv) (p : String) (sp : Option String)
    (t : ℚ) (m : Nat) (nr en : Bool) :
    ((local_phase env p sp t m nr en).2.countP isEscalationEvent) = 0 := by
  rw [local_phase]
  by_cases h : (nr && en) = true
  · simp [h, run_api_check_no_escalation]
  · simp [h, List.countP_cons, isEscalationEvent]

theorem route_prompt_escalation_once (env : RouterEnv) (p : String) (uc : Bool)
    (sp : Option String) (t : ℚ) (m : Nat) (en au : Bool)
    (lsel : LocalProfileArg) (csel : CloudProfileArg)
    (ml : LocalProfile) (mc : CloudProfile) :
    ((route_prompt env p uc sp t m en au lsel csel ml mc).2.countP isEscalationEvent) ≤ 1 := by
  rw [route_prompt]
  by_cases hb : pyIsBlank p = true
  · simp [hb]
  · simp only [hb, Bool.false_eq_true, if_false]
    cases uc with
    | true =>
      cases hc : call_cloud env p sp t m (select_profiles lsel csel ml mc).2 <;>
        simp [hc, List.countP_cons, isEscalationEvent]
    | false =>
      by_cases hcl : (classify_query_type p).route = Route.CLOUD
      · cases hc : call_cloud env p sp t m (select_profiles lsel csel ml mc).2 <;>
          simp [hcl, hc, List.countP_cons, isEscalationEvent]
      · rcases hl : local_phase env p sp t m
            (decide ((classify_query_type p).route = Route.API_CHECK)) en with ⟨res, evs⟩
        have h0 : evs.countP isEscalationEvent = 0 := by
          have := local_phase_no_escalation env p sp t m
            (decide ((classify_query_type p).route = Route.API_CHECK)) en
          rw [hl] at this
          exact this
        cases res with
        | ok lresp =>
          by_cases hesc : (au && response_shows_uncertainty
              (annotate_local_energy estimate_local_energy estimate_cloud_energy lresp
                (select_profiles lsel csel ml mc).1 (select_profiles lsel csel ml mc).2)) = true
          · cases hc : call_cloud env p sp t m (select_profiles lsel csel ml mc).2 <;>
              simp [hcl, hl, hesc, hc, List.countP_append, List.countP_cons,
                isEscalationEvent, h0]
          · simp [hcl, hl, hesc, h0]
        | error exc =>
          cases hc : call_cloud env p sp t m (select_profiles lsel csel ml mc).2 <;>
            simp [hcl, hl, hc, List.countP_append, List.countP_cons, isEscalationEvent, h0]

theorem route_prompt_escalation_fallback (env : RouterEnv) (p : String)
    (sp : Option String) (t : ℚ) (m : Nat) (en : Bool)
    (lsel : LocalProfileArg) (csel : CloudProfileArg)
    (ml : LocalProfile) (mc : CloudProfile)
    (lresp : LocalModelResponse) (evs : List RouterEvent) (ce : String)
    (hblank : pyIsBlank p = false)
    (hroute : (classify_query_type p).route ≠ Route.CLOUD)
    (hlocal : local_phase env p sp t m
        (decide ((classify_query_type p).route = Route.API_CHECK)) en = (.ok lresp, evs))
    (hunc : response_shows_uncertainty
        (annotate_local_energy estimate_local_energy estimate_cloud_energy lresp
          (select_profiles lsel csel ml mc).1 (select_profiles lsel csel ml mc).2) = true)
    (hcloud : call_cloud env p sp t m (select_profiles lsel csel ml mc).2 = .error ce) :
    route_prompt env p false sp t m en true lsel csel ml mc
      = (.ok (.localResp (annotate_local_energy estimate_local_energy estimate_cloud_energy
            lresp (select_profiles lsel csel ml mc).1 (select_profiles lsel csel ml mc).2)),
         evs ++ [RouterEvent.cloudCall .escalation p]) := by
  rw [route_prompt]
  simp [hblank, hroute, hlocal, hunc, hcloud]

theorem route_prompt_cheap_path_errors (env : RouterEnv) (p : String)
    (sp : Option String) (t : ℚ) (m : Nat) (en au : Bool)
    (lsel : LocalProfileArg) (csel : CloudProfileArg)
    (ml : LocalProfile) (mc : CloudProfile)
    (hroute : (classify_query_type p).route ≠ Route.CLOUD) :
    ∀ e, (route_prompt env p false sp t m en au lsel csel ml mc).1 = .error e →
      (e = .invalidInput "Prompt must be a non-empty string."
        ∧ pyIsBlank p = true
        ∧ (route_prompt env p false sp t m en au lsel csel ml mc).2 = [])
    ∨ (∃ l c, e = .combined l c
        ∧ (local_phase env p sp t m
            (decide ((classify_query_type p).route = Route.API_CHECK)) en).1 = .error l
        ∧ call_cloud env p sp t m (select_profiles lsel csel ml mc).2 = .error c) := by
  intro e he
  by_cases hb : pyIsBlank p = true
  · left
    rw [route_prompt] at he
    simp [hb] at he
    refine ⟨he.symm, hb, ?_⟩
    rw [route_prompt]
    simp [hb]
  · right
    rw [route_prompt] at he
    simp only [hb, Bool.false_eq_true, if_false] at he
    rcases hl : local_phase env p sp t m
        (decide ((classify_query_type p).route = Route.API_CHECK)) en with ⟨res, evs⟩
    cases res with
    | ok lresp =>
      exfalso
      by_cases hesc : (au && response_shows_uncertainty
          (annotate_local_energy estimate_local_energy estimate_cloud_energy lresp
            (select_profiles lsel csel ml mc).1 (select_profiles lsel csel ml mc).2)) = true
      · cases hc : call_cloud env p sp t m (select_profiles lsel csel ml mc).2 <;>
          simp [hroute, hl, hesc, hc] at he
      · simp [hroute, hl, hesc] at he
    | error exc =>
      cases hc : call_cloud env p sp t m (select_profiles lsel csel ml mc).2 with
      | ok r => exfalso; simp [hroute, hl, hc] at he
      | error ce =>
        have hA : e = .combined exc ce := by
          simp [hroute, hl, hc] at he
          exact he.symm
        exact ⟨exc, ce, hA, rfl, rfl⟩

theorem route_prompt_both_fail_combined (env : RouterEnv) (p : String)
    (sp : Option String) (t : ℚ) (m : Nat) (en au : Bool)
    (lsel : LocalProfileArg) (csel : CloudProfileArg)
    (ml : LocalProfile) (mc : CloudProfile)
    (l : LemonadeError) (evs : List RouterEvent) (c : String)
    (hblank : pyIsBlank p = false)
    (hroute : (classify_query_type p).route ≠ Route.CLOUD)
    (hlocal : local_phase env p sp t m
        (decide ((classify_query_type p).route = Route.API_CHECK)) en = (.error l, evs))
    (hcloud : call_cloud env p sp t m (select_profiles lsel csel ml mc).2 = .error c) :
    route_prompt env p false sp t m en au lsel csel ml mc
      = (.error (.combined l c), evs ++ [RouterEvent.cloudCall .fallback p]) := by
  rw [route_prompt]
  simp [hblank, hroute, hlocal, hcloud]

/-! ## C3 -/

/-- C3: the cheap-backend client retries only on transport failure and HTTP
5xx, up to `DEFAULT_MAX_RETRIES = 2` retries beyond the first attempt, with
backoff delays forming the doubling sequence b, 2b, ... from
`DEFAULT_BACKOFF = 0.5`; HTTP 4xx fails immediately with no retry and no
sleep; a 200 response with a missing/invalid schema (unparsable JSON, no
choices, no message content) is a non-retried parse failure; and against a
stub returning 503, 503, then 200 it succeeds after exactly 2 retries with
the non-decreasing delays [0.5, 1]. -/
theorem cheap_backend_retry_policy :
    (∀ (oracle : Nat → HttpAttempt) (s : Nat) (body : Option LemonadePayload),
      oracle 0 = .response s body → 400 ≤ s → s < 500 →
      ask_local_http oracle DEFAULT_MAX_RETRIES DEFAULT_BACKOFF
        = (.error (.http s ("Lemonade Server error: " ++ httpErrorMessage s body)), []))
  ∧ (∀ (oracle : Nat → HttpAttempt) (payload : LemonadePayload) (e : LemonadeError),
      oracle 0 = .response 200 (some payload) → parse_response payload = .error e →
      ask_local_http oracle DEFAULT_MAX_RETRIES DEFAULT_BACKOFF = (.error e, []))
  ∧ (∀ oracle : Nat → HttpAttempt,
      oracle 0 = .response 200 none →
      ask_local_http oracle DEFAULT_MAX_RETRIES DEFAULT_BACKOFF
        = (.error (.parse "Failed to parse Lemonade JSON response."), []))
  ∧ (∀ (oracle : Nat → HttpAttempt) (m : Nat) (b : ℚ),
      ∃ k, k ≤ m
        ∧ (ask_local_http oracle m b).2 = (List.range k).map (fun j => b * 2 ^ j)
        ∧ ∀ j, j < k → isRetryableAttempt (oracle j) = true)
  ∧ (ask_local_http stub503Oracle DEFAULT_MAX_RETRIES DEFAULT_BACKOFF).1
      = .ok ⟨"Paris", "llama-stub", some 42⟩
  ∧ (ask_local_http stub503Oracle DEFAULT_MAX_RETRIES DEFAULT_BACKOFF).2
      = [1/2, 1] := by
  refine ⟨?_, ?_, ?_, ?_, by rfl, ?_⟩
  · intro oracle s body h0 h4 h5
    have hsr : should_retry s = false := by
      simp only [should_retry, decide_eq_false_iff_not]
      omega
    rw [ask_local_http, askLocalAttempts, h0]
    simp [h4, hsr]
  · intro oracle payload e h0 hp
    rw [ask_local_http, askLocalAttempts, h0]
    have h4 : ¬(400 ≤ 200) := by omega
    simp [h4, hp]
  · intro oracle h0
    rw [ask_local_http, askLocalAttempts, h0]
    have h4 : ¬(400 ≤ 200) := by omega
    simp [h4]
  · intro oracle m b
    obtain ⟨k, hk, hds, hre⟩ := askLocalAttempts_shape oracle m 0 b []
    refine ⟨k, hk, ?_, fun j hj => by simpa using hre j hj⟩
    unfold ask_local_http
    rw [hds, List.nil_append, backoffDelays_eq_geometric]
  · have h : (ask_local_http stub503Oracle DEFAULT_MAX_RETRIES DEFAULT_BACKOFF).2
        = [DEFAULT_BACKOFF, DEFAULT_BACKOFF * 2] := rfl
    rw [h]
    norm_num [DEFAULT_BACKOFF]

/-- C3 witness: a stub returning HTTP 404 fails immediately, with no retry
and no backoff sleep. -/
theorem cheap_backend_retry_policy_witness :
    ask_local_http (fun _ => .response 404 none) DEFAULT_MAX_RETRIES DEFAULT_BACKOFF
      = (.error (.http 404 ("Lemonade Server error: " ++ httpErrorMessage 404 none)), []) :=
  cheap_backend_retry_policy.1 (fun _ => .response 404 none) 404 none rfl
    (by decide) (by decide)

/-! ## C4 -/

/-- C4: `classify_query_type` applies first-match-wins, case-insensitive
substring rules in priority order: real-time keywords → API_CHECK /
needs_realtime_data (outranking every other rule), then specialized-domain
markers → CLOUD / specialized_domain, then complexity markers → CLOUD /
too_complex_for_small_model, then word count over 150 → CLOUD /
prompt_too_long, else LOCAL / default_energy_saving; an empty or
whitespace-only prompt short-circuits to LOCAL / empty_prompt. -/
theorem classify_priority_order (p : String) :
    (pyIsBlank p = true →
      classify_query_type p = ⟨Route.LOCAL, "empty_prompt"⟩)
  ∧ (pyIsBlank p = false →
      anyKeyword (pyLower p) REALTIME_KEYWORDS = true →
      classify_query_type p = ⟨Route.API_CHECK, "needs_realtime_data"⟩)
  ∧ (pyIsBlank p = false →
      anyKeyword (pyLower p) REALTIME_KEYWORDS = false →
      anyKeyword (pyLower p) SPECIALIZED_DOMAINS = true →
      classify_query_type p = ⟨Route.CLOUD, "specialized_domain"⟩)
  ∧ (pyIsBlank p = false →
      anyKeyword (pyLower p) REALTIME_KEYWORDS = false →
      anyKeyword (pyLower p) SPECIALIZED_DOMAINS = false →
      anyKeyword (pyLower p) COMPLEX_MARKERS = true →
      classify_query_type p = ⟨Route.CLOUD, "too_complex_for_small_model"⟩)
  ∧ (pyIsBlank p = false →
      anyKeyword (pyLower p) REALTIME_KEYWORDS = false →
      anyKeyword (pyLower p) SPECIALIZED_DOMAINS = false →
      anyKeyword (pyLower p) COMPLEX_MARKERS = false →
      pyWordCount p > MAX_LOCAL_WORD_COUNT →
      classify_query_type p = ⟨Route.CLOUD, "prompt_too_long"⟩)
  ∧ (pyIsBlank p = false →
      anyKeyword (pyLower p) REALTIME_KEYWORDS = false →
      anyKeyword (pyLower p) SPECIALIZED_DOMAINS = false →
      anyKeyword (pyLower p) COMPLEX_MARKERS = false →
      ¬(pyWordCount p > MAX_LOCAL_WORD_COUNT) →
      classify_query_type p = ⟨Route.LOCAL, "default_energy_saving"⟩) := by
  refine ⟨?_, ?_, ?_, ?_, ?_, ?_⟩ <;> intros <;> simp_all [classify_query_type]

/-- C4 witness: a weather question hits the real-time rule. -/
theorem classify_priority_order_witness :
    classify_query_type "What\x27s the weather in Paris?"
      = ⟨Route.API_CHECK, "needs_realtime_data"⟩ :=
  (classify_priority_order "What\x27s the weather in Paris?").2.1
    (by decide) (by decide)

/-! ## C7 -/

/-- C7 counterexample: a 151-word prompt with no real-time keyword whose text
contains the specialized-domain marker "topology" is classified CLOUD /
specialized_domain, not CLOUD / prompt_too_long. -/
theorem classify_long_not_prompt_too_long :
    pyWordCount longSpecializedPrompt > MAX_LOCAL_WORD_COUNT
  ∧ anyKeyword (pyLower longSpecializedPrompt) REALTIME_KEYWORDS = false
  ∧ classify_query_type longSpecializedPrompt ≠ ⟨Route.CLOUD, "prompt_too_long"⟩
  ∧ classify_query_type longSpecializedPrompt = ⟨Route.CLOUD, "specialized_domain"⟩ := by
  refine ⟨by decide, by decide, by decide, by decide⟩

/-- C7 (amended): every prompt of more than 150 words containing no real-time
keyword, no specialized-domain marker and no complexity marker is classified
CLOUD / prompt_too_long. -/
theorem classify_prompt_too_long (p : String)
    (hwc : pyWordCount p > MAX_LOCAL_WORD_COUNT)
    (hrt : anyKeyword (pyLower p) REALTIME_KEYWORDS = false)
    (hsd : anyKeyword (pyLower p) SPECIALIZED_DOMAINS = false)
    (hcm : anyKeyword (pyLower p) COMPLEX_MARKERS = false) :
    classify_query_type p = ⟨Route.CLOUD, "prompt_too_long"⟩ := by
  have hb : pyIsBlank p = false :=
    pyIsBlank_false_of_wordCount_pos p (by omega)
  simp [classify_query_type, hb, hrt, hsd, hcm, hwc]

/-- C7 witness: 151 filler words route to CLOUD / prompt_too_long. -/
theorem classify_prompt_too_long_witness :
    classify_query_type longPlainPrompt = ⟨Route.CLOUD, "prompt_too_long"⟩ :=
  classify_prompt_too_long longPlainPrompt (by decide) (by decide) (by decide) (by decide)

/-! ## C8 -/

/-- C8: energy annotation is pure post-processing.  For any estimator pair
(covering injected profile-lookup failures), annotation never changes the
prompt, text, model, latency or token fields of either response kind, and a
failing estimation returns the response entirely unannotated (the bare
`except Exception` branch); the annotators are total functions, so no
exception can reach the caller. -/
theorem energy_annotation_frame :
    (∀ estL estC (resp : LocalModelResponse) lp cp,
        (annotate_local_energy estL estC resp lp cp).prompt = resp.prompt
      ∧ (annotate_local_energy estL estC resp lp cp).text = resp.text
      ∧ (annotate_local_energy estL estC resp lp cp).model = resp.model
      ∧ (annotate_local_energy estL estC resp lp cp).latency_s = resp.latency_s
      ∧ (annotate_local_energy estL estC resp lp cp).tokens_used = resp.tokens_used)
  ∧ (∀ estL estC (resp : LocalModelResponse) lp cp e,
      estL resp.tokens_used lp (some resp.latency_s) 500 = .error e →
      annotate_local_energy estL estC resp lp cp = resp)
  ∧ (∀ estC (resp : CloudModelResponse) cp,
        (attach_cloud_energy estC resp cp).prompt = resp.prompt
      ∧ (attach_cloud_energy estC resp cp).text = resp.text
      ∧ (attach_cloud_energy estC resp cp).model = resp.model
      ∧ (attach_cloud_energy estC resp cp).latency_s = resp.latency_s
      ∧ (attach_cloud_energy estC resp cp).tokens_used = resp.tokens_used)
  ∧ (∀ estC (resp : CloudModelResponse) cp e,
      estC resp.tokens_used cp (some resp.latency_s) 500 = .error e →
      attach_cloud_energy estC resp cp = resp) := by
  refine ⟨?_, ?_, ?_, ?_⟩
  · intro estL estC resp lp cp
    unfold annotate_local_energy
    cases estL resp.tokens_used lp (some resp.latency_s) 500 with
    | error e => exact ⟨rfl, rfl, rfl, rfl, rfl⟩
    | ok actual =>
      cases estC resp.tokens_used cp none 500 with
      | error e => exact ⟨rfl, rfl, rfl, rfl, rfl⟩
      | ok baseline => exact ⟨rfl, rfl, rfl, rfl, rfl⟩
  · intro estL estC resp lp cp e h
    unfold annotate_local_energy
    rw [h]
  · intro estC resp cp
    unfold attach_cloud_energy
    cases estC resp.tokens_used cp (some resp.latency_s) 500 with
    | error e => exact ⟨rfl, rfl, rfl, rfl, rfl⟩
    | ok est => exact ⟨rfl, rfl, rfl, rfl, rfl⟩
  · intro estC resp cp e h
    unfold attach_cloud_energy
    rw [h]

/-- C8 witness: an estimator that always fails (a forced profile-lookup
failure) leaves a concrete response untouched, text included. -/
theorem energy_annotation_frame_witness :
    annotate_local_energy
        (fun _ _ _ _ => Except.error "forced profile lookup failure")
        estimate_cloud_energy
        ⟨"q", "Paris", "m", 1, some 7, none, none, none, none⟩
        LocalProfile.NPU_RYZEN_AI CloudProfile.GPT4O_SHORT
      = ⟨"q", "Paris", "m", 1, some 7, none, none, none, none⟩ :=
  energy_annotation_frame.2.1
    (fun _ _ _ _ => Except.error "forced profile lookup failure")
    estimate_cloud_energy
    ⟨"q", "Paris", "m", 1, some 7, none, none, none, none⟩
    LocalProfile.NPU_RYZEN_AI CloudProfile.GPT4O_SHORT
    "forced profile lookup failure" rfl

/-! ## C10 -/

/-- C10: profile selection is total and never fails: a string selector whose
trimmed, lowercased form is a known slug resolves to that profile, any
unknown slug falls back to the supplied default, and with no selectors the
documented defaults npu_ryzen_ai / gpt4o_short are returned. -/
theorem profile_selection_total :
    (∀ (s : String) (p d : LocalProfile),
      localProfileIndex (pyLower (pyStrip s)) = some p →
      coerce_local_profile (some (.inr s)) d = p)
  ∧ (∀ (s : String) (d : LocalProfile),
      localProfileIndex (pyLower (pyStrip s)) = none →
      coerce_local_profile (some (.inr s)) d = d)
  ∧ (∀ (s : String) (p d : CloudProfile),
      cloudProfileIndex (pyLower (pyStrip s)) = some p →
      coerce_cloud_profile (some (.inr s)) d = p)
  ∧ (∀ (s : String) (d : CloudProfile),
      cloudProfileIndex (pyLower (pyStrip s)) = none →
      coerce_cloud_profile (some (.inr s)) d = d)
  ∧ select_profiles none none DEFAULT_LOCAL_PROFILE DEFAULT_CLOUD_PROFILE
      = (LocalProfile.NPU_RYZEN_AI, CloudProfile.GPT4O_SHORT) := by
  refine ⟨?_, ?_, ?_, ?_, rfl⟩ <;> intros <;>
    simp_all [coerce_local_profile, coerce_cloud_profile]

/-- C10 witness: a padded mixed-case known slug resolves to its profile and an
unknown slug falls back to the default. -/
theorem profile_selection_total_witness :
    coerce_local_profile (some (.inr "  NPU_Ryzen_AI ")) LocalProfile.CPU_LEGACY
      = LocalProfile.NPU_RYZEN_AI
  ∧ coerce_cloud_profile (some (.inr "no_such_profile")) CloudProfile.GPT4O_SHORT
      = CloudProfile.GPT4O_SHORT :=
  ⟨profile_selection_total.1 "  NPU_Ryzen_AI " LocalProfile.NPU_RYZEN_AI
      LocalProfile.CPU_LEGACY (by decide),
   profile_selection_total.2.2.2.1 "no_such_profile" CloudProfile.GPT4O_SHORT
      (by decide)⟩

/-! ## C5 -/

/-- C5 counterexample: on a prompt routed API_CHECK whose intent is not
detected, `run_api_check` calls no provider and invokes the cheap backend
with the original prompt itself, which carries no note that real-time data
was unavailable — not with the no-data fallback prompt. -/
theorem api_check_no_intent_cex :
    detect_api_intent noIntentPrompt = none
  ∧ (classify_query_type noIntentPrompt).route = Route.API_CHECK
  ∧ (run_api_check echoEnv noIntentPrompt none 1 512).2
      = [RouterEvent.localCall .apiNoIntent noIntentPrompt get_system_prompt_local]
  ∧ pyContains noIntentPrompt "unavailable" = false := by
  refine ⟨by decide, by decide, by rfl, by decide⟩

/-- C5 (amended): when the augmentation sub-pipeline runs and `detect_intent`
finds no intent, no provider is called and the pipeline delegates directly to
the cheap backend with the original prompt and the resolved system prompt —
skipping the no-data fallback prompt entirely. -/
theorem run_api_check_no_intent (env : RouterEnv) (p : String) (sp : Option String)
    (t : ℚ) (m : Nat) (h : detect_api_intent p = none) :
    run_api_check env p sp t m
      = (env.askLocal p (pyOrStr sp get_system_prompt_local) t m,
         [RouterEvent.localCall .apiNoIntent p (pyOrStr sp get_system_prompt_local)]) := by
  have hc : classify_api_need p = (false, []) := by simp [classify_api_need, h]
  simp [run_api_check, hc]

/-- C5 witness: the no-intent realtime prompt goes straight to the cheap
backend with the prompt unchanged. -/
theorem run_api_check_no_intent_witness :
    run_api_check echoEnv noIntentPrompt none 1 512
      = (echoEnv.askLocal noIntentPrompt (pyOrStr none get_system_prompt_local) 1 512,
         [RouterEvent.localCall .apiNoIntent noIntentPrompt
            (pyOrStr none get_system_prompt_local)]) :=
  run_api_check_no_intent echoEnv noIntentPrompt none 1 512 (by decide)

/-! ## C6 -/

/-- C6 counterexample: with the provider stub returning "Clear, 15°C" and a
failing synthesis call, the returned text is the provider string prefixed
with "Weather: ", which differs from the raw provider string; the model tag
is "api-direct" and no exception reaches the caller. -/
theorem api_check_api_direct_cex :
    (run_api_check synthFailEnv "What\x27s the weather in Paris?" none 1 512).1
      = .ok ⟨"What\x27s the weather in Paris?", "Weather: Clear, 15°C", "api-direct",
             0, none, none, none, none, none⟩
  ∧ ("Weather: Clear, 15°C" : String) ≠ "Clear, 15°C" := by
  refine ⟨by rfl, by decide⟩

/-- C6 (amended): when the provider for the detected intent returns a summary
and the cheap-backend synthesis call fails, the pipeline returns — without
raising — a response whose text is the provider summary prefixed with the
intent label (the joined api context), tagged with the sentinel model
identifier "api-direct". -/
theorem run_api_check_api_direct (env : RouterEnv) (p : String) (sp : Option String)
    (t : ℚ) (m : Nat) (i s : String) (e : LemonadeError)
    (hintent : detect_api_intent p = some i)
    (hprov : providerFor env i p = .ok s)
    (hfail : env.askLocal
        (build_local_prompt p (some (intentPrefix i ++ s)) none false false)
        (pyOrStr sp get_system_prompt_local) t m = .error e) :
    (run_api_check env p sp t m).1
      = .ok ⟨p, intentPrefix i ++ s, "api-direct", 0, none, none, none, none, none⟩ := by
  have hc : classify_api_need p = (true, [i]) := by simp [classify_api_need, hintent]
  rcases detect_api_intent_mem p i hintent with rfl | rfl | rfl
  · have hw : env.getWeather p = .ok s := by simpa [providerFor] using hprov
    have hf := hfail
    simp [intentPrefix] at hf
    simp [run_api_check, hc, collect_api_data, hw, String_intercalate_singleton, hf,
      intentPrefix]
  · have hw : env.getCrypto p = .ok s := by simpa [providerFor] using hprov
    have hf := hfail
    simp [intentPrefix] at hf
    simp [run_api_check, hc, collect_api_data, hw, String_intercalate_singleton, hf,
      intentPrefix]
  · have hw : env.getNews p = .ok s := by simpa [providerFor] using hprov
    have hf := hfail
    simp [intentPrefix] at hf
    simp [run_api_check, hc, collect_api_data, hw, String_intercalate_singleton, hf,
      intentPrefix]

/-- C6 witness: instantiated on the weather stub with a failing cheap
backend. -/
theorem run_api_check_api_direct_witness :
    (run_api_check synthFailEnv "What\x27s the weather in Paris?" none 1 512).1
      = .ok ⟨"What\x27s the weather in Paris?", intentPrefix "weather" ++ "Clear, 15°C",
             "api-direct", 0, none, none, none, none, none⟩ :=
  run_api_check_api_direct synthFailEnv "What\x27s the weather in Paris?" none 1 512
    "weather" "Clear, 15°C" (.transport "down") (by decide) rfl rfl

/-! ## C9 -/

/-- C9: whenever `detect_api_intent` finds an intent, the no-usable-data
fallback branch of `run_api_check` is unreachable: the collected data list is
non-empty (a provider failure becomes an inline error string), the trace is
exactly one provider call followed by the synthesis cheap-backend call, and
the pipeline returns a response (synthesis or api-direct), never an
exception. -/
theorem run_api_check_intent_synthesis (env : RouterEnv) (p : String) (sp : Option String)
    (t : ℚ) (m : Nat) (i : String) (h : detect_api_intent p = some i) :
    (∃ r, (run_api_check env p sp t m).1 = Except.ok r)
  ∧ (∃ synth, (run_api_check env p sp t m).2
      = [RouterEvent.providerCall i,
         RouterEvent.localCall .apiSynthesis synth (pyOrStr sp get_system_prompt_local)])
  ∧ (collect_api_data env p [i]).1 ≠ [] := by
  have hc : classify_api_need p = (true, [i]) := by simp [classify_api_need, h]
  obtain ⟨entry, hcol⟩ := collect_api_data_intent env p i (detect_api_intent_mem p i h)
  cases hask : env.askLocal
      (build_local_prompt p (some (String.intercalate "\n" [entry])) none false false)
      (pyOrStr sp get_system_prompt_local) t m with
  | ok r =>
    refine ⟨⟨r, ?_⟩,
      ⟨build_local_prompt p (some (String.intercalate "\n" [entry])) none false false, ?_⟩,
      ?_⟩ <;>
      simp [run_api_check, hc, hcol, hask]
  | error e =>
    refine ⟨⟨⟨p, String.intercalate "\n" [entry], "api-direct", 0, none, none, none, none, none⟩, ?_⟩,
      ⟨build_local_prompt p (some (String.intercalate "\n" [entry])) none false false, ?_⟩,
      ?_⟩ <;>
      simp [run_api_check, hc, hcol, hask]

/-- C9 witness: a crypto prompt against the echo environment reaches the
synthesis path with non-empty collected data. -/
theorem run_api_check_intent_synthesis_witness :
    (∃ r, (run_api_check echoEnv "bitcoin price please" none 1 512).1 = Except.ok r)
  ∧ (∃ synth, (run_api_check echoEnv "bitcoin price please" none 1 512).2
      = [RouterEvent.providerCall "crypto",
         RouterEvent.localCall .apiSynthesis synth (pyOrStr none get_system_prompt_local)])
  ∧ (collect_api_data echoEnv "bitcoin price please" ["crypto"]).1 ≠ [] :=
  run_api_check_intent_synthesis echoEnv "bitcoin price please" none 1 512 "crypto"
    (by decide)

/-! ## C1 -/

/-- C1: on any routing run the trace contains at most one escalation
cloud-call; and on the cheap-backend path (use_cloud off, classification not
CLOUD), if the cheap phase succeeded with a response flagged uncertain while
auto-escalation is enabled and the single escalation cloud call fails with a
cloud error, `route_prompt` returns the original (energy-annotated,
text-unchanged) uncertain cheap-backend response instead of raising. -/
theorem escalation_at_most_once_with_fallback :
    (∀ (env : RouterEnv) (p : String) (uc : Bool) (sp : Option String) (t : ℚ)
       (m : Nat) (en au : Bool) (lsel : LocalProfileArg) (csel : CloudProfileArg)
       (ml : LocalProfile) (mc : CloudProfile),
      ((route_prompt env p uc sp t m en au lsel csel ml mc).2.countP isEscalationEvent) ≤ 1)
  ∧ (∀ (env : RouterEnv) (p : String) (sp : Option String) (t : ℚ) (m : Nat)
       (en : Bool) (lsel : LocalProfileArg) (csel : CloudProfileArg)
       (ml : LocalProfile) (mc : CloudProfile)
       (lresp : LocalModelResponse) (evs : List RouterEvent) (ce : String),
      pyIsBlank p = false →
      (classify_query_type p).route ≠ Route.CLOUD →
      local_phase env p sp t m
          (decide ((classify_query_type p).route = Route.API_CHECK)) en = (.ok lresp, evs) →
      response_shows_uncertainty
          (annotate_local_energy estimate_local_energy estimate_cloud_energy lresp
            (select_profiles lsel csel ml mc).1 (select_profiles lsel csel ml mc).2) = true →
      call_cloud env p sp t m (select_profiles lsel csel ml mc).2 = .error ce →
      route_prompt env p false sp t m en true lsel csel ml mc
          = (.ok (.localResp (annotate_local_energy estimate_local_energy
                estimate_cloud_energy lresp (select_profiles lsel csel ml mc).1
                (select_profiles lsel csel ml mc).2)),
             evs ++ [RouterEvent.cloudCall .escalation p])
        ∧ (annotate_local_energy estimate_local_energy estimate_cloud_energy lresp
            (select_profiles lsel csel ml mc).1 (select_profiles lsel csel ml mc).2).text
          = lresp.text) := by
  refine ⟨route_prompt_escalation_once, ?_⟩
  intro env p sp t m en lsel csel ml mc lresp evs ce hb hr hl hu hc
  exact ⟨route_prompt_escalation_fallback env p sp t m en lsel csel ml mc lresp evs ce
      hb hr hl hu hc,
    annotate_local_energy_text estimate_local_energy estimate_cloud_energy lresp
      (select_profiles lsel csel ml mc).1 (select_profiles lsel csel ml mc).2⟩

/-- C1 witness: an uncertain cheap answer with a failing cloud backend is
returned as-is (annotated), with exactly one escalation call in the trace. -/
theorem escalation_at_most_once_with_fallback_witness :
    route_prompt uncertainLocalEnv "hello there" false none 1 512 true true none none
        DEFAULT_LOCAL_PROFILE DEFAULT_CLOUD_PROFILE
      = (.ok (.localResp (annotate_local_energy estimate_local_energy
            estimate_cloud_energy c1LocalResp
            (select_profiles none none DEFAULT_LOCAL_PROFILE DEFAULT_CLOUD_PROFILE).1
            (select_profiles none none DEFAULT_LOCAL_PROFILE DEFAULT_CLOUD_PROFILE).2)),
         c1LocalEvs ++ [RouterEvent.cloudCall .escalation "hello there"])
  ∧ (annotate_local_energy estimate_local_energy estimate_cloud_energy c1LocalResp
        (select_profiles none none DEFAULT_LOCAL_PROFILE DEFAULT_CLOUD_PROFILE).1
        (select_profiles none none DEFAULT_LOCAL_PROFILE DEFAULT_CLOUD_PROFILE).2).text
      = c1LocalResp.text :=
  escalation_at_most_once_with_fallback.2 uncertainLocalEnv "hello there" none 1 512
    true none none DEFAULT_LOCAL_PROFILE DEFAULT_CLOUD_PROFILE
    c1LocalResp c1LocalEvs "cloud down"
    (by decide) (by decide) rfl (by decide) rfl

/-! ## C2 -/

/-- C2 counterexample: a prompt classified CLOUD ("topology") whose direct
cloud call fails makes `route_prompt` raise a plain cloud error — neither
InvalidInput nor a combined error — while the cheap backend was never tried
(the trace holds only the pre-routing cloud call). -/
theorem route_prompt_cloud_error_cex :
    classify_query_type "topology" = ⟨Route.CLOUD, "specialized_domain"⟩
  ∧ route_prompt synthFailEnv "topology" false none 1 512 true true none none
        DEFAULT_LOCAL_PROFILE DEFAULT_CLOUD_PROFILE
      = (.error (.cloud "cloud down"), [RouterEvent.cloudCall .preroute "topology"]) := by
  refine ⟨by decide, by rfl⟩

/-- C2 (amended): on the cheap-backend path (use_cloud off, classification
not CLOUD), the only errors `route_prompt` raises are InvalidInput — for a
blank prompt, before any backend call (empty trace) — and a combined error,
raised exactly when the cheap phase and the cloud fallback both failed,
carrying both causes.  A prompt classified CLOUD or forced to the cloud
instead propagates a lone cloud-backend failure directly. -/
theorem route_prompt_error_contract :
    (∀ (env : RouterEnv) (p : String) (sp : Option String) (t : ℚ) (m : Nat)
       (en au : Bool) (lsel : LocalProfileArg) (csel : CloudProfileArg)
       (ml : LocalProfile) (mc : CloudProfile),
      (classify_query_type p).route ≠ Route.CLOUD →
      ∀ e, (route_prompt env p false sp t m en au lsel csel ml mc).1 = .error e →
        (e = .invalidInput "Prompt must be a non-empty string."
          ∧ pyIsBlank p = true
          ∧ (route_prompt env p false sp t m en au lsel csel ml mc).2 = [])
      ∨ (∃ l c, e = .combined l c
          ∧ (local_phase env p sp t m
              (decide ((classify_query_type p).route = Route.API_CHECK)) en).1 = .error l
          ∧ call_cloud env p sp t m (select_profiles lsel csel ml mc).2 = .error c))
  ∧ (∀ (env : RouterEnv) (p : String) (sp : Option String) (t : ℚ) (m : Nat)
       (en au : Bool) (lsel : LocalProfileArg) (csel : CloudProfileArg)
       (ml : LocalProfile) (mc : CloudProfile)
       (l : LemonadeError) (evs : List RouterEvent) (c : String),
      pyIsBlank p = false →
      (classify_query_type p).route ≠ Route.CLOUD →
      local_phase env p sp t m
          (decide ((classify_query_type p).route = Route.API_CHECK)) en = (.error l, evs) →
      call_cloud env p sp t m (select_profiles lsel csel ml mc).2 = .error c →
      route_prompt env p false sp t m en au lsel csel ml mc
        = (.error (.combined l c), evs ++ [RouterEvent.cloudCall .fallback p])) :=
  ⟨route_prompt_cheap_path_errors, route_prompt_both_fail_combined⟩

/-- C2 witness: with both backends down, the raised error is the combined one
carrying the transport cause and the cloud cause. -/
theorem route_prompt_error_contract_witness :
    (RouterError.combined (.transport "down") "cloud down"
        = .invalidInput "Prompt must be a non-empty string."
      ∧ pyIsBlank "hello there" = true
      ∧ (route_prompt synthFailEnv "hello there" false none 1 512 true true none none
            DEFAULT_LOCAL_PROFILE DEFAULT_CLOUD_PROFILE).2 = [])
  ∨ (∃ l c, RouterError.combined (.transport "down") "cloud down" = .combined l c
      ∧ (local_phase synthFailEnv "hello there" none 1 512
          (decide ((classify_query_type "hello there").route = Route.API_CHECK)) true).1
            = .error l
      ∧ call_cloud synthFailEnv "hello there" none 1 512
          (select_profiles none none DEFAULT_LOCAL_PROFILE DEFAULT_CLOUD_PROFILE).2
            = .error c) :=
  route_prompt_error_contract.1 synthFailEnv "hello there" none 1 512 true true
    none none DEFAULT_LOCAL_PROFILE DEFAULT_CLOUD_PROFILE (by decide)
    (.combined (.transport "down") "cloud down") rfl

end SEVEN
